import Mathlib

/-!
# Verification of the inter-service communication core of `exchange-simulator-go`

Shallow embedding of the repository's infrastructure layer:

* `ServiceDiscoveryClient` (Redis-backed registry with heartbeat/staleness
  semantics) — `discoverServices`, `getServiceEndpoint`, `registerService`,
  `startClient`;
* `ConfigurationClient` (TTL-cached remote configuration) —
  `getConfiguration`, `setConfiguration`, `getCachedValue`;
* `InterServiceClientManager` (pooled gRPC connections) —
  `getOrCreateConnection`, `getAuditCorrelatorClient`.

Modelling conventions:

* `time.Time` values and durations are modelled as integers (seconds for the
  discovery layer, matching the source constants; the unit is irrelevant to
  the proofs).  `time.Since(t)` at query time `now` is `now - t`, and
  `a.After(b)` is `a > b`.
* The Redis keyspace is an association list `Registry`.  A stored value is
  `some info` when the JSON payload deserializes into a `ServiceInfo` and
  `none` when it is corrupt (`json.Unmarshal` fails).  The outcome of the
  Redis `KEYS` command (which can fail wholesale) is an explicit
  `keysFailure : Option String` oracle argument; per-key `GET` failures
  appear as keys absent from the association list.
* Network I/O performed by the HTTP configuration client and the gRPC dialer
  is represented by explicit outcome oracles (`RemoteConfigOutcome`,
  `RemoteSetOutcome`, a `dial` function), one constructor per early-return
  site of the Go code.
* Distinct `fmt.Errorf` sites that callers discriminate on are embedded as
  constructors of small error inductives (`DiscoveryError`, `MgrError`),
  each with a `message` rendering that mirrors the Go format string.
* Effects that the specification talks about but that Go performs silently
  (number of dial attempts, closed connections, heartbeat-goroutine launch)
  are recorded in explicit instrumentation fields of the returned state.
-/

deriving instance DecidableEq for Except

namespace ExchangeSimulator

/-- Points in time and durations, in seconds (discovery layer) or the
relevant unit of the caller; `time.Time` is modelled as `Int`. -/
abbrev Timestamp := Int

/-- `serviceTimeout = 90 * time.Second`: the staleness threshold. -/
def serviceTimeout : Int := 90

/-- `heartbeatInterval = 30 * time.Second`. -/
def heartbeatInterval : Int := 30

/-! ## Service discovery: data model -/

/-- `ServiceInfo` from the source: one registered instance of a service. -/
structure ServiceInfo where
  serviceName : String
  host : String
  grpcPort : Int
  httpPort : Int
  version : String
  environment : String
  status : String
  lastSeen : Timestamp
  metadata : List (String × String)
deriving DecidableEq, Repr

/-- The Redis keyspace: an association list from keys to stored records.
`some info` is a value whose JSON deserializes into `info`; `none` is a
value that fails to unmarshal (a corrupt record). -/
abbrev Registry := List (String × Option ServiceInfo)

/-- Character-level prefix test; embeds Redis glob matching for the
patterns the source uses (`"services:*"` and `"services:<name>:*"`, a
single trailing star), as matching the pattern minus the star. -/
def strIsPrefixOf (p s : String) : Bool :=
  p.data.isPrefixOf s.data

/-- The constant `"services:"` (source constant for the key namespace). -/
def serviceKeyBase : String := "services:"

/-- The prefix that the `KEYS` pattern of `DiscoverServices` denotes:
pattern `"services:*"` when the queried name is empty, otherwise
`"services:<name>:*"` (built by `fmt.Sprintf("services:%s:*", name)`). -/
def patternPfx (serviceName : String) : String :=
  if serviceName = "" then serviceKeyBase
  else serviceKeyBase ++ serviceName ++ ":"

/-- `getServiceKey`: `fmt.Sprintf("services:%s:%s:%d", name, host, grpcPort)`. -/
def getServiceKey (info : ServiceInfo) : String :=
  serviceKeyBase ++ info.serviceName ++ ":" ++ info.host ++ ":" ++ toString info.grpcPort

/-- Redis `GET key`: `some v` when the key is present (`v` being the stored,
possibly corrupt, value), `none` when the `GET` does not yield data. -/
def redisGet (st : Registry) (key : String) : Option (Option ServiceInfo) :=
  match st with
  | [] => none
  | (k, v) :: rest => if k = key then some v else redisGet rest key

/-- Redis `SET key value`: overwrite the value when the key exists,
otherwise add the pair to the keyspace. -/
def storeSet (st : Registry) (key : String) (v : Option ServiceInfo) : Registry :=
  if key ∈ st.map Prod.fst then
    st.map (fun p => if p.1 = key then (key, v) else p)
  else
    st ++ [(key, v)]

/-- The distinct error values `DiscoverServices`/`GetServiceEndpoint`
produce, one constructor per `fmt.Errorf` site. -/
inductive DiscoveryError where
  | discoverFailed (cause : String)
  | noHealthyInstances (serviceName : String)
deriving DecidableEq, Repr

/-- The Go error string of each `DiscoveryError`. -/
def DiscoveryError.message : DiscoveryError → String
  | .discoverFailed cause => "failed to discover services: " ++ cause
  | .noHealthyInstances name => "no healthy instances of service " ++ name ++ " found"

/-- The per-key body of the `DiscoverServices` loop: fetch the key's data
(skip the key when `GET` fails), deserialize it (skip when unmarshalling
fails), and keep the record only when
`time.Since(info.LastSeen) < serviceTimeout`. -/
def discoverStep (st : Registry) (now : Timestamp) (key : String) : Option ServiceInfo :=
  match redisGet st key with
  | none => none
  | some none => none
  | some (some info) =>
      if now - info.lastSeen < serviceTimeout then some info else none

/-- `ServiceDiscoveryClient.DiscoverServices`: enumerate the keys matching
the pattern for `serviceName`, then fetch, deserialize and
staleness-filter each record, skipping (not failing on) bad keys. -/
def discoverServices (st : Registry) (keysFailure : Option String) (now : Timestamp)
    (serviceName : String) : Except DiscoveryError (List ServiceInfo) :=
  match keysFailure with
  | some e => .error (.discoverFailed e)
  | none =>
      .ok (((st.map Prod.fst).filter (fun k => strIsPrefixOf (patternPfx serviceName) k)).filterMap
        (discoverStep st now))

/-- `ServiceDiscoveryClient.GetServiceEndpoint`: discover, fail with the
"no healthy instances" error on an empty result, otherwise take the first
record and return `fmt.Sprintf("%s:%d", host, grpcPort)`. -/
def getServiceEndpoint (st : Registry) (keysFailure : Option String) (now : Timestamp)
    (serviceName : String) : Except DiscoveryError String :=
  match discoverServices st keysFailure now serviceName with
  | .error e => .error e
  | .ok [] => .error (.noHealthyInstances serviceName)
  | .ok (service :: _) => .ok (service.host ++ ":" ++ toString service.grpcPort)

/-- Result of `ServiceDiscoveryClient.registerService`: the client's
(mutated) `serviceInfo`, the store after the `SET`, and the Go return. -/
structure RegisterResult where
  info : ServiceInfo
  store : Registry
  result : Except String Unit
deriving DecidableEq

/-- `ServiceDiscoveryClient.registerService`: refresh `LastSeen`, then
`SET` the marshalled record at `getServiceKey` (the Redis-level failure of
the `SET`, if any, is the `setFailure` oracle). -/
def registerService (info : ServiceInfo) (st : Registry) (now : Timestamp)
    (setFailure : Option String) : RegisterResult :=
  match setFailure with
  | some e =>
      { info := { info with lastSeen := now }, store := st,
        result := .error ("failed to register service in Redis: " ++ e) }
  | none =>
      { info := { info with lastSeen := now },
        store := storeSet st (getServiceKey { info with lastSeen := now })
          (some { info with lastSeen := now }),
        result := .ok () }

/-- A sequence of successful registrations (initial `Start` plus heartbeat
re-registrations) by one instance, at the given times. -/
def iterateRegistrations (info : ServiceInfo) (st : Registry) (times : List Timestamp) :
    ServiceInfo × Registry :=
  times.foldl (fun p t => ((registerService p.1 p.2 t none).info, (registerService p.1 p.2 t none).store)) (info, st)

/-- The mutable state of a `ServiceDiscoveryClient` relevant to lifecycle
claims: its own record, the `isRunning` flag and the connectivity metric. -/
structure DiscoveryState where
  serviceInfo : ServiceInfo
  isRunning : Bool
  isConnected : Bool
deriving DecidableEq, Repr

/-- Externally observable side effects of one `Start()` call: how many
registration writes were attempted and whether the heartbeat goroutine was
launched. -/
structure StartEffects where
  registrationAttempts : Nat
  heartbeatStarted : Bool
deriving DecidableEq, Repr

/-- Everything one `Start()` call produces. -/
structure StartResult where
  state : DiscoveryState
  store : Registry
  result : Except String Unit
  effects : StartEffects
deriving DecidableEq

/-- `ServiceDiscoveryClient.Start`: reject when already running; `Ping`
the store (the `pingFailure` oracle) — on failure record disconnection and
abort; otherwise register once and launch the heartbeat ticker. -/
def startClient (s : DiscoveryState) (st : Registry) (now : Timestamp)
    (pingFailure : Option String) (setFailure : Option String) : StartResult :=
  if s.isRunning then
    { state := s, store := st, result := .error "service discovery already running",
      effects := { registrationAttempts := 0, heartbeatStarted := false } }
  else
    match pingFailure with
    | some e =>
        { state := { s with isConnected := false }, store := st,
          result := .error ("failed to connect to Redis: " ++ e),
          effects := { registrationAttempts := 0, heartbeatStarted := false } }
    | none =>
        match registerService s.serviceInfo st now setFailure with
        | reg =>
          match reg.result with
          | .error e =>
              { state := { s with serviceInfo := reg.info, isConnected := true },
                store := reg.store,
                result := .error ("failed to register service: " ++ e),
                effects := { registrationAttempts := 1, heartbeatStarted := false } }
          | .ok _ =>
              { state := { s with serviceInfo := reg.info, isConnected := true, isRunning := true },
                store := reg.store,
                result := .ok (),
                effects := { registrationAttempts := 1, heartbeatStarted := true } }

/-- `ServiceDiscoveryClient.IsRunning`. -/
def isRunningQuery (s : DiscoveryState) : Bool :=
  s.isRunning

/-- Modelled from the claim's words, for comparison with the source-derived
`discoverServices`: the well-formed live records among the matched registry
entries — every entry whose key matches the query pattern, whose value
deserializes, and whose age is below the staleness threshold. -/
def wellFormedLiveRecords (st : Registry) (now : Timestamp) (serviceName : String) :
    List ServiceInfo :=
  (st.filter (fun p => strIsPrefixOf (patternPfx serviceName) p.1)).filterMap (fun p =>
    match p.2 with
    | none => none
    | some info => if now - info.lastSeen < serviceTimeout then some info else none)

/-! ## Configuration client -/

/-- `ConfigurationValue` from the source; the `interface{}` payload is
modelled as an opaque string. -/
structure ConfigurationValue where
  key : String
  value : String
  environment : String
  service : String
  updatedAt : Timestamp
deriving DecidableEq, Repr

/-- `configCacheEntry`: a cached value and its absolute expiry. -/
structure ConfigCacheEntry where
  value : ConfigurationValue
  expiresAt : Timestamp
deriving DecidableEq, Repr

/-- `cacheTTL = 5 * time.Minute`, in seconds. -/
def cacheTTL : Int := 300

/-- `ConfigurationClientMetrics` from the source. -/
structure ConfigurationClientMetrics where
  requestCount : Int
  cacheHits : Int
  cacheMisses : Int
  lastRequestTime : Timestamp
  lastCacheUpdate : Timestamp
  isConnected : Bool
  responseTimeMs : Int
deriving DecidableEq, Repr

/-- The mutable state of a `ConfigurationClient`: the cache map and the
metrics struct. -/
structure ConfigurationClientState where
  cache : String → Option ConfigCacheEntry
  metrics : ConfigurationClientMetrics

/-- The state a `NewConfigurationClient` starts from: empty cache,
zero-valued metrics with `IsConnected = false`. -/
def initialConfigState : ConfigurationClientState :=
  { cache := fun _ => none,
    metrics := { requestCount := 0, cacheHits := 0, cacheMisses := 0,
                 lastRequestTime := 0, lastCacheUpdate := 0,
                 isConnected := false, responseTimeMs := 0 } }

/-- Outcome of the remote HTTP GET performed on a cache miss, one
constructor per early-return site of `GetConfiguration`'s remote half:
transport failure of `httpClient.Do`, non-200 status, body-read failure,
JSON-parse failure, a `Success=false` envelope, an empty `Data` array, or
a value (`Data[0]`). -/
inductive RemoteConfigOutcome where
  | netError (msg : String)
  | badStatus (code : Nat)
  | readError (msg : String)
  | parseError (msg : String)
  | failure (errorMsg : String)
  | empty
  | success (v : ConfigurationValue)
deriving DecidableEq, Repr

/-- Outcome of the remote HTTP POST performed by `SetConfiguration`:
transport failure of `httpClient.Do`, or a response with some status code. -/
inductive RemoteSetOutcome where
  | netError (msg : String)
  | status (code : Nat)
deriving DecidableEq, Repr

/-- `ConfigurationClient.getCachedValue`: look the key up; a present entry
with `time.Now().After(expiresAt)` is deleted and reported as absent
(lazy expiry); a live entry is returned with the cache untouched.
Returns the found value (if any) and the cache after the call. -/
def getCachedValue (cache : String → Option ConfigCacheEntry) (now : Timestamp)
    (key : String) : Option ConfigurationValue × (String → Option ConfigCacheEntry) :=
  match cache key with
  | none => (none, cache)
  | some entry =>
      if now > entry.expiresAt then
        (none, fun k => if k = key then none else cache k)
      else
        (some entry.value, cache)

/-- `ConfigurationClient.updateMetrics`, run deferred at the end of every
`GetConfiguration`/`SetConfiguration` call. -/
def updateMetricsAfter (m : ConfigurationClientMetrics) (now durationMs : Timestamp) :
    ConfigurationClientMetrics :=
  { m with requestCount := m.requestCount + 1, lastRequestTime := now, responseTimeMs := durationMs }

/-- `ConfigurationClient.incrementCacheHit`. -/
def incrementCacheHit (m : ConfigurationClientMetrics) : ConfigurationClientMetrics :=
  { m with cacheHits := m.cacheHits + 1 }

/-- `ConfigurationClient.incrementCacheMiss`. -/
def incrementCacheMiss (m : ConfigurationClientMetrics) : ConfigurationClientMetrics :=
  { m with cacheMisses := m.cacheMisses + 1 }

/-- `ConfigurationClient.setConnectionStatus`. -/
def setConnectionStatus (m : ConfigurationClientMetrics) (connected : Bool) :
    ConfigurationClientMetrics :=
  { m with isConnected := connected }

/-- Everything one `GetConfiguration` call produces: the client state
afterwards, the Go return value, and how many remote HTTP requests the
call issued. -/
structure GetConfigResult where
  state : ConfigurationClientState
  result : Except String ConfigurationValue
  remoteCalls : Nat

/-- `ConfigurationClient.GetConfiguration`: consult the cache first — a hit
increments the hit counter and returns the cached value with no remote
request; otherwise increment the miss counter and issue one remote
request, whose outcome is the `remote` oracle; a successful fetch is
cached with expiry `now + cacheTTL`.  The deferred `updateMetrics` runs on
every path. -/
def getConfiguration (c : ConfigurationClientState) (now durationMs : Timestamp)
    (key : String) (remote : RemoteConfigOutcome) : GetConfigResult :=
  match (getCachedValue c.cache now key).1 with
  | some v =>
      { state := { cache := (getCachedValue c.cache now key).2,
                   metrics := updateMetricsAfter (incrementCacheHit c.metrics) now durationMs },
        result := .ok v, remoteCalls := 0 }
  | none =>
      match remote with
      | .netError msg =>
          { state := { cache := (getCachedValue c.cache now key).2,
                       metrics := updateMetricsAfter (setConnectionStatus (incrementCacheMiss c.metrics) false) now durationMs },
            result := .error ("failed to fetch configuration: " ++ msg), remoteCalls := 1 }
      | .badStatus code =>
          { state := { cache := (getCachedValue c.cache now key).2,
                       metrics := updateMetricsAfter (setConnectionStatus (incrementCacheMiss c.metrics) true) now durationMs },
            result := .error ("configuration service returned status " ++ toString code),
            remoteCalls := 1 }
      | .readError msg =>
          { state := { cache := (getCachedValue c.cache now key).2,
                       metrics := updateMetricsAfter (setConnectionStatus (incrementCacheMiss c.metrics) true) now durationMs },
            result := .error ("failed to read response body: " ++ msg), remoteCalls := 1 }
      | .parseError msg =>
          { state := { cache := (getCachedValue c.cache now key).2,
                       metrics := updateMetricsAfter (setConnectionStatus (incrementCacheMiss c.metrics) true) now durationMs },
            result := .error ("failed to parse response: " ++ msg), remoteCalls := 1 }
      | .failure errorMsg =>
          { state := { cache := (getCachedValue c.cache now key).2,
                       metrics := updateMetricsAfter (setConnectionStatus (incrementCacheMiss c.metrics) true) now durationMs },
            result := .error ("configuration service error: " ++ errorMsg), remoteCalls := 1 }
      | .empty =>
          { state := { cache := (getCachedValue c.cache now key).2,
                       metrics := updateMetricsAfter (setConnectionStatus (incrementCacheMiss c.metrics) true) now durationMs },
            result := .error ("configuration key not found: " ++ key), remoteCalls := 1 }
      | .success v =>
          { state := { cache := fun k =>
                         if k = key then some { value := v, expiresAt := now + cacheTTL }
                         else (getCachedValue c.cache now key).2 k,
                       metrics := updateMetricsAfter { setConnectionStatus (incrementCacheMiss c.metrics) true with lastCacheUpdate := now } now durationMs },
            result := .ok v, remoteCalls := 1 }

/-- `ConfigurationClient.SetConfiguration`: POST the tuple; a transport
failure flips the connectivity flag and errors; a status other than 200 or
201 errors; on success the cache entry for the key is evicted
(`invalidateCache`), never updated in place.  The deferred
`updateMetrics` runs on every path. -/
def setConfiguration (c : ConfigurationClientState) (now durationMs : Timestamp)
    (key : String) (value : String) (environment : String) (remote : RemoteSetOutcome) :
    ConfigurationClientState × Except String Unit :=
  match remote with
  | .netError msg =>
      ({ c with metrics := updateMetricsAfter (setConnectionStatus c.metrics false) now durationMs },
       .error ("failed to set configuration: " ++ msg))
  | .status code =>
      if code = 200 ∨ code = 201 then
        ({ cache := fun k => if k = key then none else c.cache k,
           metrics := updateMetricsAfter (setConnectionStatus c.metrics true) now durationMs },
         .ok ())
      else
        ({ c with metrics := updateMetricsAfter (setConnectionStatus c.metrics true) now durationMs },
         .error ("configuration service returned status " ++ toString code))

/-- One call against the configuration client, with its time and oracle. -/
inductive ConfigOp where
  | opGet (now durationMs : Timestamp) (key : String) (remote : RemoteConfigOutcome)
  | opSet (now durationMs : Timestamp) (key : String) (value : String)
      (environment : String) (remote : RemoteSetOutcome)

/-- State transition of one `ConfigOp`. -/
def configStep (c : ConfigurationClientState) : ConfigOp → ConfigurationClientState
  | .opGet now durationMs key remote => (getConfiguration c now durationMs key remote).state
  | .opSet now durationMs key value environment remote =>
      (setConfiguration c now durationMs key value environment remote).1

/-- Run a sequence of calls. -/
def runConfigOps (c : ConfigurationClientState) (ops : List ConfigOp) :
    ConfigurationClientState :=
  ops.foldl configStep c

/-- The value delivered by an operation's remote fetch for key `k`, when
the operation is a `GetConfiguration k` whose remote request succeeded. -/
def remoteOkValue (k : String) : ConfigOp → Option ConfigurationValue
  | .opGet _ _ key (.success v) => if key = k then some v else none
  | _ => none

/-- All values remotely fetched for key `k` during a sequence of calls. -/
def remoteOkValues (k : String) (ops : List ConfigOp) : List ConfigurationValue :=
  ops.filterMap (remoteOkValue k)

/-- Number of `GetConfiguration` calls in a sequence. -/
def countGets : List ConfigOp → Nat
  | [] => 0
  | .opGet _ _ _ _ :: ops => countGets ops + 1
  | .opSet _ _ _ _ _ _ :: ops => countGets ops

/-! ## Inter-service client manager -/

/-- gRPC transport connectivity states (`connectivity.State`). -/
inductive ConnState where
  | ready
  | idle
  | connecting
  | transientFailure
  | shutdown
deriving DecidableEq, Repr

/-- A `*grpc.ClientConn` handle: an identity (pointer) and its current
transport state. -/
structure Conn where
  id : Nat
  state : ConnState
deriving DecidableEq, Repr

/-- A typed capability client built over a pooled connection
(`auditCorrelatorClientImpl` and friends): the target service name and
the identity of the wrapped connection. -/
structure ManagedClient where
  serviceName : String
  connId : Nat
deriving DecidableEq, Repr

/-- The mutable state of an `InterServiceClientManager`: the connection
map, the typed-client map, the connection metrics, plus instrumentation
recording how many `grpc.DialContext` calls were made and which connection
handles were closed. -/
structure ManagerState where
  connections : String → Option Conn
  clients : String → Option ManagedClient
  totalConnections : Int
  failedConnections : Int
  dialAttempts : Nat
  closedConns : List Nat

/-- The state a `NewInterServiceClientManager` starts from. -/
def initialManagerState : ManagerState :=
  { connections := fun _ => none, clients := fun _ => none,
    totalConnections := 0, failedConnections := 0, dialAttempts := 0, closedConns := [] }

/-- The error values client accessors return.  `serviceUnavailable` is the
`ServiceUnavailableError{ServiceName, Message}` struct; `plain` stands for
any raw (unwrapped) Go error value. -/
inductive MgrError where
  | serviceUnavailable (serviceName : String) (message : String)
  | plain (message : String)
deriving DecidableEq, Repr

/-- `ServiceUnavailableError.Error()` and the identity rendering of a raw
error. -/
def MgrError.render : MgrError → String
  | .serviceUnavailable name msg => "service " ++ name ++ " unavailable: " ++ msg
  | .plain msg => msg

/-- The dial-and-store tail of `getOrCreateConnection`: resolve an
endpoint through service discovery (wrapping a failure's `Error()` text),
dial it (the `dial` oracle stands for `grpc.DialContext`; each invocation
is counted in `dialAttempts`), and on success store the new connection
under the service name. -/
def managerDial (name : String) (ms : ManagerState) (st : Registry)
    (keysFailure : Option String) (now : Timestamp)
    (dial : String → Except String Conn) : ManagerState × Except String Conn :=
  match getServiceEndpoint st keysFailure now name with
  | .error e =>
      ({ ms with failedConnections := ms.failedConnections + 1 },
       .error ("failed to discover service " ++ name ++ ": " ++ e.message))
  | .ok endpoint =>
      match dial endpoint with
      | .error msg =>
          ({ ms with dialAttempts := ms.dialAttempts + 1, failedConnections := ms.failedConnections + 1 },
           .error ("failed to connect to " ++ name ++ " at " ++ endpoint ++ ": " ++ msg))
      | .ok conn =>
          ({ ms with dialAttempts := ms.dialAttempts + 1, totalConnections := ms.totalConnections + 1, connections := fun k => if k = name then some conn else ms.connections k },
           .ok conn)

/-- `InterServiceClientManager.getOrCreateConnection`: reuse an existing
connection whose transport state is `Ready` or `Idle`; close and discard a
connection in any other state before resolving a fresh endpoint and
dialing it. -/
def getOrCreateConnection (name : String) (ms : ManagerState) (st : Registry)
    (keysFailure : Option String) (now : Timestamp)
    (dial : String → Except String Conn) : ManagerState × Except String Conn :=
  match ms.connections name with
  | some conn =>
      if conn.state = .ready ∨ conn.state = .idle then
        (ms, .ok conn)
      else
        managerDial name
          { ms with closedConns := ms.closedConns ++ [conn.id], connections := fun k => if k = name then none else ms.connections k }
          st keysFailure now dial
  | none => managerDial name ms st keysFailure now dial

/-- `InterServiceClientManager.GetAuditCorrelatorClient`: return the
memoized typed client when present; otherwise obtain a connection via
`getOrCreateConnection` — wrapping any failure into
`ServiceUnavailableError{"audit-correlator", cause}` — build the typed
client over it, memoize it and return it. -/
def getAuditCorrelatorClient (ms : ManagerState) (st : Registry)
    (keysFailure : Option String) (now : Timestamp)
    (dial : String → Except String Conn) : ManagerState × Except MgrError ManagedClient :=
  match ms.clients "audit-correlator" with
  | some client => (ms, .ok client)
  | none =>
      match getOrCreateConnection "audit-correlator" ms st keysFailure now dial with
      | (ms1, .error cause) => (ms1, .error (.serviceUnavailable "audit-correlator" cause))
      | (ms1, .ok conn) =>
          ({ ms1 with clients := fun k => if k = "audit-correlator" then some { serviceName := "audit-correlator", connId := conn.id } else ms1.clients k },
           .ok { serviceName := "audit-correlator", connId := conn.id })

/-! ## Sample data used by the witnesses -/

/-- A live sample record (age 50s at query time 100). -/
def demoRecord : ServiceInfo :=
  { serviceName := "svc", host := "localhost", grpcPort := 9000, httpPort := 9001,
    version := "1.0.0", environment := "development", status := "healthy",
    lastSeen := 50, metadata := [] }

/-- A stale sample record (age 100s, at or past the 90s threshold, at
query time 100). -/
def staleRecord : ServiceInfo :=
  { demoRecord with host := "stalehost", lastSeen := 0 }

/-- A keyspace holding one live record, one stale record still physically
present, and one corrupt (non-deserializable) value. -/
def demoRegistry : Registry :=
  [(getServiceKey demoRecord, some demoRecord),
   (getServiceKey staleRecord, some staleRecord),
   ("services:svc:badhost:9000", none)]

/-! ## Discovery lemmas -/

theorem discoverStep_live {st : Registry} {now : Timestamp} {key : String} {r : ServiceInfo}
    (h : discoverStep st now key = some r) : now - r.lastSeen < serviceTimeout := by
  unfold discoverStep at h
  split at h
  · exact absurd h (by simp)
  · exact absurd h (by simp)
  · split at h
    · cases h
      assumption
    · exact absurd h (by simp)

theorem discoverServices_error {st : Registry} {keysFailure : Option String}
    {now : Timestamp} {serviceName : String} {e : DiscoveryError}
    (h : discoverServices st keysFailure now serviceName = .error e) :
    ∃ cause, e = .discoverFailed cause := by
  cases keysFailure with
  | none => simp [discoverServices] at h
  | some c =>
      refine ⟨c, ?_⟩
      simp [discoverServices] at h
      exact h.symm

theorem discoverServices_ok_mem {st : Registry} {keysFailure : Option String}
    {now : Timestamp} {serviceName : String} {l : List ServiceInfo}
    (h : discoverServices st keysFailure now serviceName = .ok l)
    {r : ServiceInfo} (hr : r ∈ l) : now - r.lastSeen < serviceTimeout := by
  cases keysFailure with
  | some c => simp [discoverServices] at h
  | none =>
      simp only [discoverServices, Except.ok.injEq] at h
      subst h
      obtain ⟨k, _, hstep⟩ := List.mem_filterMap.mp hr
      exact discoverStep_live hstep

/-- Claim C1: every record `DiscoverServices` returns satisfies
`now - last_seen < 90`; any record at or past the staleness threshold is
excluded from the result even when still physically present in the store. -/
theorem discoverServices_staleness_filtering (st : Registry) (keysFailure : Option String)
    (now : Timestamp) (serviceName : String) (l : List ServiceInfo)
    (h : discoverServices st keysFailure now serviceName = .ok l) :
    (∀ r ∈ l, now - r.lastSeen < serviceTimeout) ∧
      ∀ r : ServiceInfo, serviceTimeout ≤ now - r.lastSeen → r ∉ l := by
  refine ⟨fun r hr => discoverServices_ok_mem h hr, fun r hge hr => ?_⟩
  exact absurd (discoverServices_ok_mem h hr) (not_lt.mpr hge)

/-- Witness for C1: at time 100 over `demoRegistry`, the query returns
exactly the live record, and the stale record (still in the store) is
excluded. -/
theorem discoverServices_staleness_filtering_witness :
    ((∀ r ∈ [demoRecord], (100 : Int) - r.lastSeen < serviceTimeout) ∧
      ∀ r : ServiceInfo, serviceTimeout ≤ (100 : Int) - r.lastSeen → r ∉ [demoRecord]) ∧
      (getServiceKey staleRecord, some staleRecord) ∈ demoRegistry ∧
      serviceTimeout ≤ (100 : Int) - staleRecord.lastSeen := by
  refine ⟨discoverServices_staleness_filtering demoRegistry none 100 "svc" [demoRecord] (by decide), by decide, by decide⟩

/-- Claim C4: `GetServiceEndpoint` fails with the "no healthy instances"
error exactly when discovery returns zero live records; when discovery
returns a non-empty list it returns `host:grpcPort` of the first record. -/
theorem getServiceEndpoint_first_record (st : Registry) (keysFailure : Option String)
    (now : Timestamp) (serviceName : String) :
    (getServiceEndpoint st keysFailure now serviceName =
        .error (.noHealthyInstances serviceName) ↔
      discoverServices st keysFailure now serviceName = .ok []) ∧
    ∀ svc rest, discoverServices st keysFailure now serviceName = .ok (svc :: rest) →
      getServiceEndpoint st keysFailure now serviceName =
        .ok (svc.host ++ ":" ++ toString svc.grpcPort) := by
  rcases h : discoverServices st keysFailure now serviceName with e | l
  · obtain ⟨cause, rfl⟩ := discoverServices_error h
    constructor
    · constructor
      · intro habs
        simp [getServiceEndpoint, h] at habs
      · intro habs
        exact absurd habs (by simp)
    · intro svc rest hsvc
      exact absurd hsvc (by simp)
  · cases l with
    | nil =>
        constructor
        · constructor
          · intro _
            rfl
          · intro _
            simp [getServiceEndpoint, h]
        · intro svc rest hsvc
          exact absurd hsvc (by simp)
    | cons svc rest =>
        constructor
        · constructor
          · intro habs
            simp [getServiceEndpoint, h] at habs
          · intro habs
            exact absurd habs (by simp)
        · intro svc2 rest2 hsvc
          obtain ⟨h1, h2⟩ := List.cons.inj (Except.ok.inj hsvc)
          subst h1
          simp [getServiceEndpoint, h]

/-- Witness for C4: over `demoRegistry` the endpoint resolves to the first
(only) live record's `host:grpcPort`; and for the service name "ghost"
with no records the query fails with the "no healthy instances" error. -/
theorem getServiceEndpoint_first_record_witness :
    getServiceEndpoint demoRegistry none 100 "svc" =
        .ok (demoRecord.host ++ ":" ++ toString demoRecord.grpcPort) ∧
      getServiceEndpoint demoRegistry none 100 "ghost" =
        .error (.noHealthyInstances "ghost") := by
  constructor
  · exact (getServiceEndpoint_first_record demoRegistry none 100 "svc").2 demoRecord [] (by decide)
  · exact (getServiceEndpoint_first_record demoRegistry none 100 "ghost").1.mpr (by decide)

/-- Enumerating the keys of a duplicate-free keyspace and fetching each
one back is the same as walking the entries directly. -/
theorem enum_fetch_eq (p : String → Bool) (g : String → Option ServiceInfo → Option ServiceInfo) :
    ∀ st : Registry, (st.map Prod.fst).Nodup →
      ((st.map Prod.fst).filter p).filterMap (fun k =>
          match redisGet st k with
          | none => none
          | some d => g k d) =
        (st.filter (fun pr => p pr.1)).filterMap (fun pr => g pr.1 pr.2) := by
  intro st
  induction st with
  | nil => intro _; rfl
  | cons hd rest ih =>
      intro hnd
      obtain ⟨k0, v0⟩ := hd
      simp only [List.map_cons, List.nodup_cons] at hnd
      obtain ⟨hk0, hrest⟩ := hnd
      have hcongr : ((rest.map Prod.fst).filter p).filterMap (fun k =>
          match redisGet ((k0, v0) :: rest) k with
          | none => none
          | some d => g k d) =
          ((rest.map Prod.fst).filter p).filterMap (fun k =>
          match redisGet rest k with
          | none => none
          | some d => g k d) := by
        apply List.filterMap_congr
        intro k hk
        have hkmem : k ∈ rest.map Prod.fst := List.mem_of_mem_filter hk
        have hne : k0 ≠ k := fun he => hk0 (he ▸ hkmem)
        simp [redisGet, hne]
      have hself : redisGet ((k0, v0) :: rest) k0 = some v0 := by simp [redisGet]
      by_cases hp : p k0
      · simp only [List.map_cons, List.filter_cons_of_pos hp, List.filterMap_cons]
        rw [hcongr, ih hrest]
        cases hgv : g k0 v0 <;>
          simp [List.filter_cons, List.filterMap_cons, hp, hself, hgv]
      · simp only [List.map_cons, List.filter_cons_of_neg hp]
        rw [hcongr, ih hrest]
        simp [List.filter_cons, hp]

/-- Claim C7: over a duplicate-free keyspace, `DiscoverServices` never
fails on corrupt (non-deserializable) stored values — it succeeds and
returns exactly the well-formed live records among the matched entries. -/
theorem discoverServices_skips_corrupt (st : Registry) (now : Timestamp)
    (serviceName : String) (hnd : (st.map Prod.fst).Nodup) :
    discoverServices st none now serviceName =
      .ok (wellFormedLiveRecords st now serviceName) := by
  simp only [discoverServices, wellFormedLiveRecords, Except.ok.injEq]
  have := enum_fetch_eq (fun k => strIsPrefixOf (patternPfx serviceName) k)
    (fun _ d =>
      match d with
      | none => none
      | some info => if now - info.lastSeen < serviceTimeout then some info else none)
    st hnd
  rw [← this]
  apply List.filterMap_congr
  intro k _
  simp only [discoverStep]
  rcases redisGet st k with _ | (_ | info) <;> rfl

/-- Witness for C7: `demoRegistry` contains a corrupt value; discovery at
time 100 still succeeds and returns exactly the well-formed live records. -/
theorem discoverServices_skips_corrupt_witness :
    discoverServices demoRegistry none 100 "svc" =
        .ok (wellFormedLiveRecords demoRegistry 100 "svc") ∧
      ("services:svc:badhost:9000", (none : Option ServiceInfo)) ∈ demoRegistry ∧
      wellFormedLiveRecords demoRegistry 100 "svc" = [demoRecord] := by
  refine ⟨discoverServices_skips_corrupt demoRegistry 100 "svc" (by decide), by decide, by decide⟩

/-- Claim C8: when the connectivity probe (`Ping`) fails during `Start()`,
the call returns an error, attempts no registration write, launches no
heartbeat loop, leaves the store untouched and leaves `IsRunning()` false. -/
theorem startClient_ping_failure (s : DiscoveryState) (st : Registry) (now : Timestamp)
    (e : String) (setFailure : Option String) (hrun : s.isRunning = false) :
    (startClient s st now (some e) setFailure).result =
        .error ("failed to connect to Redis: " ++ e) ∧
      isRunningQuery (startClient s st now (some e) setFailure).state = false ∧
      (startClient s st now (some e) setFailure).effects.registrationAttempts = 0 ∧
      (startClient s st now (some e) setFailure).effects.heartbeatStarted = false ∧
      (startClient s st now (some e) setFailure).store = st := by
  simp [startClient, hrun, isRunningQuery]

/-- A stopped discovery client, used by the witnesses. -/
def stoppedState : DiscoveryState :=
  { serviceInfo := demoRecord, isRunning := false, isConnected := false }

/-- Witness for C8: starting the stopped client against an unreachable
store fails and leaves it stopped, with no registration and no heartbeat. -/
theorem startClient_ping_failure_witness :
    (startClient stoppedState demoRegistry 100 (some "connection refused") none).result =
        .error ("failed to connect to Redis: " ++ "connection refused") ∧
      isRunningQuery (startClient stoppedState demoRegistry 100 (some "connection refused") none).state = false ∧
      (startClient stoppedState demoRegistry 100 (some "connection refused") none).effects.registrationAttempts = 0 ∧
      (startClient stoppedState demoRegistry 100 (some "connection refused") none).effects.heartbeatStarted = false ∧
      (startClient stoppedState demoRegistry 100 (some "connection refused") none).store = demoRegistry :=
  startClient_ping_failure stoppedState demoRegistry 100 "connection refused" none rfl

/-! ## Registration idempotence -/

theorem strIsPrefixOf_append (a b : String) : strIsPrefixOf a (a ++ b) = true := by
  have h : a.data <+: (a ++ b).data := by
    rw [String.data_append]
    exact List.prefix_append _ _
  simp only [strIsPrefixOf]
  exact List.isPrefixOf_iff_prefix.mpr h

theorem getServiceKey_matches_pattern (info : ServiceInfo) (hname : info.serviceName ≠ "") :
    strIsPrefixOf (patternPfx info.serviceName) (getServiceKey info) = true := by
  have he : getServiceKey info =
      patternPfx info.serviceName ++ (info.host ++ ":" ++ toString info.grpcPort) := by
    simp [getServiceKey, patternPfx, hname, serviceKeyBase, String.append_assoc]
  rw [he]
  exact strIsPrefixOf_append _ _

theorem storeSet_new {st : Registry} {key : String} (v : Option ServiceInfo)
    (h : key ∉ st.map Prod.fst) : storeSet st key v = st ++ [(key, v)] := by
  simp [storeSet, h]

theorem storeSet_slot {pre : Registry} {key : String} (v v2 : Option ServiceInfo)
    (h : key ∉ pre.map Prod.fst) :
    storeSet (pre ++ [(key, v)]) key v2 = pre ++ [(key, v2)] := by
  have hmem : key ∈ (pre ++ [(key, v)]).map Prod.fst := by simp
  have h1 : pre.map (fun p => if p.1 = key then (key, v2) else p) = pre.map id := by
    apply List.map_congr_left
    intro p hp
    have hne : p.1 ≠ key := by
      intro he
      exact h (he ▸ List.mem_map_of_mem Prod.fst hp)
    simp [hne]
  simp only [storeSet, if_pos hmem, List.map_append, h1, List.map_id]
  simp

theorem iterateRegistrations_cons (i : ServiceInfo) (st : Registry) (t : Timestamp)
    (ts : List Timestamp) :
    iterateRegistrations i st (t :: ts) =
      iterateRegistrations (registerService i st t none).info
        (registerService i st t none).store ts := rfl

theorem redisGet_append_right {st : Registry} {key : String}
    (h : key ∉ st.map Prod.fst) (l2 : Registry) :
    redisGet (st ++ l2) key = redisGet l2 key := by
  induction st with
  | nil => rfl
  | cons hd rest ih =>
      obtain ⟨k0, v0⟩ := hd
      simp only [List.map_cons, List.mem_cons, not_or] at h
      obtain ⟨hne, hrest⟩ := h
      have hne2 : k0 ≠ key := fun he => hne he.symm
      simp [redisGet, hne2, ih hrest]

theorem iterate_slot (info : ServiceInfo) :
    ∀ (ts : List Timestamp) (pre : Registry) (cur : Timestamp),
      getServiceKey info ∉ pre.map Prod.fst →
      iterateRegistrations { info with lastSeen := cur }
          (pre ++ [(getServiceKey info, some { info with lastSeen := cur })]) ts =
        ({ info with lastSeen := ts.getLastD cur },
          pre ++ [(getServiceKey info, some { info with lastSeen := ts.getLastD cur })]) := by
  intro ts
  induction ts with
  | nil =>
      intro pre cur _
      simp [iterateRegistrations]
  | cons t ts ih =>
      intro pre cur h
      rw [iterateRegistrations_cons]
      have h2 : (registerService { info with lastSeen := cur }
          (pre ++ [(getServiceKey info, some { info with lastSeen := cur })]) t none).store =
          pre ++ [(getServiceKey info, some { info with lastSeen := t })] := by
        show storeSet (pre ++ [(getServiceKey info, some { info with lastSeen := cur })])
          (getServiceKey info) (some { info with lastSeen := t }) = _
        exact storeSet_slot _ _ h
      have h1 : (registerService { info with lastSeen := cur }
          (pre ++ [(getServiceKey info, some { info with lastSeen := cur })]) t none).info =
          { info with lastSeen := t } := rfl
      rw [h1, h2, ih pre t h, List.getLastD_cons]

/-- Claim C9: the storage key is a deterministic function of name, host
and RPC port (unchanged by re-registration), n ≥ 1 registrations by the
same instance leave exactly one entry for that instance in the store, and
enumerating that service name afterwards yields exactly that one record. -/
theorem registration_idempotent (info : ServiceInfo) (st : Registry) (t : Timestamp)
    (ts : List Timestamp) (now : Timestamp)
    (hkeys : ∀ key ∈ st.map Prod.fst, strIsPrefixOf (patternPfx info.serviceName) key = false)
    (hname : info.serviceName ≠ "") :
    getServiceKey (iterateRegistrations info st (t :: ts)).1 = getServiceKey info ∧
      ((iterateRegistrations info st (t :: ts)).2.map Prod.fst).count (getServiceKey info) = 1 ∧
      (now - ts.getLastD t < serviceTimeout →
        discoverServices (iterateRegistrations info st (t :: ts)).2 none now info.serviceName =
          .ok [{ info with lastSeen := ts.getLastD t }]) := by
  have hnotin : getServiceKey info ∉ st.map Prod.fst := by
    intro hmem
    have hfalse := hkeys _ hmem
    rw [getServiceKey_matches_pattern info hname] at hfalse
    cases hfalse
  have hfirst : iterateRegistrations info st (t :: ts) =
      ({ info with lastSeen := ts.getLastD t },
        st ++ [(getServiceKey info, some { info with lastSeen := ts.getLastD t })]) := by
    rw [iterateRegistrations_cons]
    have h2 : (registerService info st t none).store =
        st ++ [(getServiceKey info, some { info with lastSeen := t })] := by
      show storeSet st (getServiceKey info) (some { info with lastSeen := t }) = _
      exact storeSet_new _ hnotin
    have h1 : (registerService info st t none).info = { info with lastSeen := t } := rfl
    rw [h1, h2]
    exact iterate_slot info ts st t hnotin
  refine ⟨?_, ?_, ?_⟩
  · rw [hfirst]
    rfl
  · rw [hfirst]
    simp only [List.map_append, List.count_append, List.map_cons, List.map_nil]
    rw [List.count_eq_zero.mpr hnotin]
    simp
  · intro hlive
    rw [hfirst]
    simp only [discoverServices, Except.ok.injEq]
    rw [List.map_append, List.filter_append]
    have hfilst : (st.map Prod.fst).filter
        (fun k => strIsPrefixOf (patternPfx info.serviceName) k) = [] := by
      rw [List.filter_eq_nil_iff]
      intro k hk
      simp [hkeys k hk]
    have hkeymatch := getServiceKey_matches_pattern info hname
    have hfilk : (([(getServiceKey info,
        some { info with lastSeen := ts.getLastD t })] : Registry).map Prod.fst).filter
        (fun k => strIsPrefixOf (patternPfx info.serviceName) k) = [getServiceKey info] := by
      simp [hkeymatch]
    have hget : redisGet
        (st ++ [(getServiceKey info, some { info with lastSeen := ts.getLastD t })])
        (getServiceKey info) =
        some (some { info with lastSeen := ts.getLastD t }) := by
      rw [redisGet_append_right hnotin]
      simp [redisGet]
    have hstep : discoverStep
        (st ++ [(getServiceKey info, some { info with lastSeen := ts.getLastD t })]) now
        (getServiceKey info) = some { info with lastSeen := ts.getLastD t } := by
      simp only [discoverStep]
      rw [hget]
      have hl2 : now - ({ info with lastSeen := ts.getLastD t } : ServiceInfo).lastSeen <
          serviceTimeout := hlive
      exact if_pos hl2
    rw [hfilst, hfilk, List.nil_append, List.filterMap_cons, hstep, List.filterMap_nil]

/-- Witness for C9: two registrations (times 10 and 40) from an empty
store, queried at time 100: one slot, one discovered record. -/
theorem registration_idempotent_witness :
    getServiceKey (iterateRegistrations demoRecord [] (10 :: [40])).1 = getServiceKey demoRecord ∧
      ((iterateRegistrations demoRecord [] (10 :: [40])).2.map Prod.fst).count
        (getServiceKey demoRecord) = 1 ∧
      ((100 : Int) - [40].getLastD 10 < serviceTimeout →
        discoverServices (iterateRegistrations demoRecord [] (10 :: [40])).2 none 100
          demoRecord.serviceName = .ok [{ demoRecord with lastSeen := [40].getLastD 10 }]) :=
  registration_idempotent demoRecord [] 10 [40] 100 (by simp) (by decide)

/-! ## Configuration cache lemmas -/

theorem getCachedValue_absent {cache : String → Option ConfigCacheEntry} {now : Timestamp}
    {key : String} (h : cache key = none) :
    getCachedValue cache now key = (none, cache) := by
  simp [getCachedValue, h]

theorem getCachedValue_fresh {cache : String → Option ConfigCacheEntry} {now : Timestamp}
    {key : String} {entry : ConfigCacheEntry} (h : cache key = some entry)
    (hf : ¬now > entry.expiresAt) :
    getCachedValue cache now key = (some entry.value, cache) := by
  simp [getCachedValue, h, hf]

theorem getCachedValue_expired {cache : String → Option ConfigCacheEntry} {now : Timestamp}
    {key : String} {entry : ConfigCacheEntry} (h : cache key = some entry)
    (he : now > entry.expiresAt) :
    getCachedValue cache now key = (none, fun k => if k = key then none else cache k) := by
  simp [getCachedValue, h, he]

theorem getCachedValue_fst_some {cache : String → Option ConfigCacheEntry} {now : Timestamp}
    {key : String} {v : ConfigurationValue}
    (h : (getCachedValue cache now key).1 = some v) :
    ∃ e, cache key = some e ∧ e.value = v ∧ (getCachedValue cache now key).2 = cache := by
  cases hc : cache key with
  | none => rw [getCachedValue_absent hc] at h; cases h
  | some e =>
      by_cases hexp : now > e.expiresAt
      · rw [getCachedValue_expired hc hexp] at h; cases h
      · rw [getCachedValue_fresh hc hexp] at h
        refine ⟨e, rfl, ?_, ?_⟩
        · exact Option.some.inj h
        · rw [getCachedValue_fresh hc hexp]

theorem getCachedValue_snd_cases (cache : String → Option ConfigCacheEntry) (now : Timestamp)
    (key k : String) :
    (getCachedValue cache now key).2 k = cache k ∨ (getCachedValue cache now key).2 k = none := by
  cases hc : cache key with
  | none => left; rw [getCachedValue_absent hc]
  | some e =>
      by_cases hexp : now > e.expiresAt
      · rw [getCachedValue_expired hc hexp]
        by_cases hk : k = key
        · right; simp [hk]
        · left; simp [hk]
      · left; rw [getCachedValue_fresh hc hexp]

theorem getConfiguration_hit {c : ConfigurationClientState} {now durationMs : Timestamp}
    {key : String} {remote : RemoteConfigOutcome} {v : ConfigurationValue}
    (h : (getCachedValue c.cache now key).1 = some v) :
    (getConfiguration c now durationMs key remote).result = .ok v ∧
      (getConfiguration c now durationMs key remote).remoteCalls = 0 ∧
      (getConfiguration c now durationMs key remote).state.cache =
        (getCachedValue c.cache now key).2 ∧
      (getConfiguration c now durationMs key remote).state.metrics =
        updateMetricsAfter (incrementCacheHit c.metrics) now durationMs := by
  simp [getConfiguration, h]

theorem getConfiguration_miss_calls {c : ConfigurationClientState} {now durationMs : Timestamp}
    {key : String} {remote : RemoteConfigOutcome}
    (h : (getCachedValue c.cache now key).1 = none) :
    (getConfiguration c now durationMs key remote).remoteCalls = 1 ∧
      (getConfiguration c now durationMs key remote).state.metrics.cacheMisses =
        c.metrics.cacheMisses + 1 ∧
      (getConfiguration c now durationMs key remote).state.metrics.cacheHits =
        c.metrics.cacheHits ∧
      (getConfiguration c now durationMs key remote).state.metrics.requestCount =
        c.metrics.requestCount + 1 := by
  cases remote <;>
    simp [getConfiguration, h, updateMetricsAfter, incrementCacheMiss, setConnectionStatus]

theorem getConfiguration_miss_cache {c : ConfigurationClientState} {now durationMs : Timestamp}
    {key : String} {remote : RemoteConfigOutcome} (k : String)
    (h : (getCachedValue c.cache now key).1 = none) :
    (getConfiguration c now durationMs key remote).state.cache k =
        (getCachedValue c.cache now key).2 k ∨
      (k = key ∧ ∃ v, remote = .success v ∧
        (getConfiguration c now durationMs key remote).state.cache k =
          some { value := v, expiresAt := now + cacheTTL }) := by
  cases remote with
  | success v =>
      by_cases hk : k = key
      · right
        exact ⟨hk, v, rfl, by simp [getConfiguration, h, hk]⟩
      · left
        simp [getConfiguration, h, hk]
  | netError msg => left; simp [getConfiguration, h]
  | badStatus code => left; simp [getConfiguration, h]
  | readError msg => left; simp [getConfiguration, h]
  | parseError msg => left; simp [getConfiguration, h]
  | failure errorMsg => left; simp [getConfiguration, h]
  | empty => left; simp [getConfiguration, h]

theorem getConfiguration_ok {c : ConfigurationClientState} {now durationMs : Timestamp}
    {key : String} {remote : RemoteConfigOutcome} {v : ConfigurationValue}
    (h : (getConfiguration c now durationMs key remote).result = .ok v) :
    (getCachedValue c.cache now key).1 = some v ∨ remote = .success v := by
  cases hcv : (getCachedValue c.cache now key).1 with
  | some w =>
      left
      have hr := (@getConfiguration_hit c now durationMs key remote w hcv).1
      rw [h] at hr
      have hw : v = w := Except.ok.inj hr
      rw [hw]
  | none =>
      cases remote <;> simp [getConfiguration, hcv] at h
      subst h
      right
      rfl

theorem getConfiguration_metrics (c : ConfigurationClientState) (now durationMs : Timestamp)
    (key : String) (remote : RemoteConfigOutcome) :
    (getConfiguration c now durationMs key remote).state.metrics.requestCount =
        c.metrics.requestCount + 1 ∧
      (((getConfiguration c now durationMs key remote).state.metrics.cacheHits =
            c.metrics.cacheHits + 1 ∧
          (getConfiguration c now durationMs key remote).state.metrics.cacheMisses =
            c.metrics.cacheMisses) ∨
        ((getConfiguration c now durationMs key remote).state.metrics.cacheHits =
            c.metrics.cacheHits ∧
          (getConfiguration c now durationMs key remote).state.metrics.cacheMisses =
            c.metrics.cacheMisses + 1)) := by
  cases hcv : (getCachedValue c.cache now key).1 with
  | some w =>
      refine ⟨?_, Or.inl ⟨?_, ?_⟩⟩ <;>
        simp [(@getConfiguration_hit c now durationMs key remote w hcv).2.2.2,
          updateMetricsAfter, incrementCacheHit]
  | none =>
      obtain ⟨-, hm, hh, hr⟩ :=
        @getConfiguration_miss_calls c now durationMs key remote hcv
      exact ⟨hr, Or.inr ⟨hh, hm⟩⟩

theorem setConfiguration_metrics (c : ConfigurationClientState) (now durationMs : Timestamp)
    (key value environment : String) (remote : RemoteSetOutcome) :
    (setConfiguration c now durationMs key value environment remote).1.metrics.cacheHits =
        c.metrics.cacheHits ∧
      (setConfiguration c now durationMs key value environment remote).1.metrics.cacheMisses =
        c.metrics.cacheMisses := by
  cases remote with
  | netError msg => simp [setConfiguration, updateMetricsAfter, setConnectionStatus]
  | status code =>
      by_cases hc : code = 200 ∨ code = 201 <;>
        simp [setConfiguration, hc, updateMetricsAfter, setConnectionStatus]

theorem setConfiguration_ok_cache {c : ConfigurationClientState} {now durationMs : Timestamp}
    {key value environment : String} {remote : RemoteSetOutcome}
    (h : (setConfiguration c now durationMs key value environment remote).2 = .ok ()) :
    (setConfiguration c now durationMs key value environment remote).1.cache key = none := by
  cases remote with
  | netError msg => simp [setConfiguration] at h
  | status code =>
      by_cases hc : code = 200 ∨ code = 201
      · simp [setConfiguration, hc]
      · simp [setConfiguration, hc] at h

theorem setConfiguration_cache_k (c : ConfigurationClientState) (now durationMs : Timestamp)
    (key value environment : String) (remote : RemoteSetOutcome) (k : String) :
    (setConfiguration c now durationMs key value environment remote).1.cache k = c.cache k ∨
      (setConfiguration c now durationMs key value environment remote).1.cache k = none := by
  cases remote with
  | netError msg => left; simp [setConfiguration]
  | status code =>
      by_cases hc : code = 200 ∨ code = 201
      · by_cases hk : k = key
        · right; simp [setConfiguration, hc, hk]
        · left; simp [setConfiguration, hc, hk]
      · left; simp [setConfiguration, hc]

/-- Claim C2: a `GetConfiguration` on a key whose cached entry is younger
than the TTL returns the cached value with no remote call; once the TTL
has elapsed the same call is a miss that performs exactly one remote call,
and the expired entry is removed from the cache at the lookup, so the old
entry is gone from the resulting state. -/
theorem getConfiguration_cache_ttl (c : ConfigurationClientState) (now durationMs : Timestamp)
    (key : String) (remote : RemoteConfigOutcome) (entry : ConfigCacheEntry)
    (h : c.cache key = some entry) :
    (now < entry.expiresAt →
      (getConfiguration c now durationMs key remote).result = .ok entry.value ∧
        (getConfiguration c now durationMs key remote).remoteCalls = 0) ∧
    (now > entry.expiresAt →
      (getConfiguration c now durationMs key remote).remoteCalls = 1 ∧
        (getCachedValue c.cache now key).1 = none ∧
        (getCachedValue c.cache now key).2 key = none ∧
        (getConfiguration c now durationMs key remote).state.cache key ≠ some entry) := by
  constructor
  · intro hfresh
    have hnotgt : ¬now > entry.expiresAt := fun hgt => lt_irrefl now (hfresh.trans hgt)
    have hgcv := getCachedValue_fresh h hnotgt
    have h1 : (getCachedValue c.cache now key).1 = some entry.value := by rw [hgcv]
    obtain ⟨hres, hcalls, -, -⟩ :=
      @getConfiguration_hit c now durationMs key remote entry.value h1
    exact ⟨hres, hcalls⟩
  · intro hexp
    have hgcv := getCachedValue_expired h hexp
    have h1 : (getCachedValue c.cache now key).1 = none := by rw [hgcv]
    refine ⟨(@getConfiguration_miss_calls c now durationMs key remote h1).1,
      h1, by rw [hgcv]; simp, ?_⟩
    rcases @getConfiguration_miss_cache c now durationMs key remote key h1 with
      hc | ⟨-, v, -, hc⟩
    · rw [hc, hgcv]
      simp
    · rw [hc]
      intro habs
      have hent : ConfigCacheEntry.mk v (now + cacheTTL) = entry := Option.some.inj habs
      have hexpeq : entry.expiresAt = now + cacheTTL := by rw [← hent]
      rw [hexpeq] at hexp
      simp [cacheTTL] at hexp

/-- Sample configuration values and a client state whose cache holds one
entry for key `"k"` expiring at time 10. -/
def demoCV : ConfigurationValue :=
  { key := "k", value := "v1", environment := "development",
    service := "exchange-simulator", updatedAt := 0 }

def demoCV2 : ConfigurationValue :=
  { demoCV with value := "v2" }

def demoEntry : ConfigCacheEntry :=
  { value := demoCV, expiresAt := 10 }

def demoConfigState : ConfigurationClientState :=
  { cache := fun k => if k = "k" then some demoEntry else none,
    metrics := initialConfigState.metrics }

/-- Witness for C2: the same cached key read at time 5 (before expiry) and
at time 20 (after expiry). -/
theorem getConfiguration_cache_ttl_witness :
    ((getConfiguration demoConfigState 5 0 "k" (.success demoCV2)).result = .ok demoEntry.value ∧
      (getConfiguration demoConfigState 5 0 "k" (.success demoCV2)).remoteCalls = 0) ∧
    ((getConfiguration demoConfigState 20 0 "k" (.success demoCV2)).remoteCalls = 1 ∧
      (getCachedValue demoConfigState.cache 20 "k").1 = none ∧
      (getCachedValue demoConfigState.cache 20 "k").2 "k" = none ∧
      (getConfiguration demoConfigState 20 0 "k" (.success demoCV2)).state.cache "k" ≠
        some demoEntry) := by
  constructor
  · exact (getConfiguration_cache_ttl demoConfigState 5 0 "k" (.success demoCV2) demoEntry
      (by decide)).1 (by decide)
  · exact (getConfiguration_cache_ttl demoConfigState 20 0 "k" (.success demoCV2) demoEntry
      (by decide)).2 (by decide)

theorem runConfigOps_cons (c : ConfigurationClientState) (op : ConfigOp) (ops : List ConfigOp) :
    runConfigOps c (op :: ops) = runConfigOps (configStep c op) ops := rfl

theorem runConfigOps_hits_misses :
    ∀ (ops : List ConfigOp) (c : ConfigurationClientState),
      (runConfigOps c ops).metrics.cacheHits + (runConfigOps c ops).metrics.cacheMisses =
        c.metrics.cacheHits + c.metrics.cacheMisses + (countGets ops : Int) := by
  intro ops
  induction ops with
  | nil =>
      intro c
      simp [runConfigOps, countGets]
  | cons op ops ih =>
      intro c
      rw [runConfigOps_cons, ih (configStep c op)]
      cases op with
      | opGet now durationMs key remote =>
          obtain ⟨-, hs⟩ := getConfiguration_metrics c now durationMs key remote
          have hstep : (configStep c (.opGet now durationMs key remote)).metrics.cacheHits +
              (configStep c (.opGet now durationMs key remote)).metrics.cacheMisses =
              c.metrics.cacheHits + c.metrics.cacheMisses + 1 := by
            rcases hs with ⟨h1, h2⟩ | ⟨h1, h2⟩ <;> (simp only [configStep]; rw [h1, h2]; ring)
          rw [hstep]
          simp only [countGets]
          push_cast
          ring
      | opSet now durationMs key value environment remote =>
          obtain ⟨h1, h2⟩ := setConfiguration_metrics c now durationMs key value environment remote
          have hstep : (configStep c (.opSet now durationMs key value environment remote)).metrics.cacheHits +
              (configStep c (.opSet now durationMs key value environment remote)).metrics.cacheMisses =
              c.metrics.cacheHits + c.metrics.cacheMisses := by
            simp only [configStep]
            rw [h1, h2]
          rw [hstep]
          simp only [countGets]

/-- Claim C10: every `GetConfiguration` call, whatever its outcome,
increments `RequestCount` by one and exactly one of `CacheHits` and
`CacheMisses` by one; consequently, over any call sequence from a fresh
client, `CacheHits + CacheMisses` equals the number of `GetConfiguration`
calls made. -/
theorem configuration_metrics_accounting :
    (∀ (c : ConfigurationClientState) (now durationMs : Timestamp) (key : String)
        (remote : RemoteConfigOutcome),
      (getConfiguration c now durationMs key remote).state.metrics.requestCount =
          c.metrics.requestCount + 1 ∧
        (((getConfiguration c now durationMs key remote).state.metrics.cacheHits =
              c.metrics.cacheHits + 1 ∧
            (getConfiguration c now durationMs key remote).state.metrics.cacheMisses =
              c.metrics.cacheMisses) ∨
          ((getConfiguration c now durationMs key remote).state.metrics.cacheHits =
              c.metrics.cacheHits ∧
            (getConfiguration c now durationMs key remote).state.metrics.cacheMisses =
              c.metrics.cacheMisses + 1))) ∧
    ∀ ops : List ConfigOp,
      (runConfigOps initialConfigState ops).metrics.cacheHits +
          (runConfigOps initialConfigState ops).metrics.cacheMisses = (countGets ops : Int) := by
  refine ⟨getConfiguration_metrics, fun ops => ?_⟩
  rw [runConfigOps_hits_misses ops initialConfigState]
  simp [initialConfigState]

theorem remoteOkValues_cons (k : String) (op : ConfigOp) (ops : List ConfigOp) :
    remoteOkValues k (op :: ops) = remoteOkValues k [op] ++ remoteOkValues k ops := by
  simp only [remoteOkValues, List.filterMap_cons, List.filterMap_nil]
  cases hro : remoteOkValue k op <;> simp

/-- Provenance of a cache entry across one call: it was already cached
with the same value, or it came from this operation's remote fetch. -/
theorem configStep_cache_source (k : String) (c : ConfigurationClientState) (op : ConfigOp)
    (e : ConfigCacheEntry) (h : (configStep c op).cache k = some e) :
    (∃ e0, c.cache k = some e0 ∧ e0.value = e.value) ∨ e.value ∈ remoteOkValues k [op] := by
  cases op with
  | opGet now durationMs key remote =>
      simp only [configStep] at h
      cases hcv : (getCachedValue c.cache now key).1 with
      | some v =>
          obtain ⟨-, -, hcache, -⟩ :=
            @getConfiguration_hit c now durationMs key remote v hcv
          rw [hcache] at h
          obtain ⟨e0, hc0, hv0, hsnd⟩ := getCachedValue_fst_some hcv
          rw [hsnd] at h
          exact Or.inl ⟨e, h, rfl⟩
      | none =>
          rcases @getConfiguration_miss_cache c now durationMs key remote k hcv
            with hcc | ⟨hk, v, hrem, hcc⟩
          · rw [hcc] at h
            rcases getCachedValue_snd_cases c.cache now key k with hs | hs
            · rw [hs] at h
              exact Or.inl ⟨e, h, rfl⟩
            · rw [hs] at h
              cases h
          · rw [hcc] at h
            have he : ConfigCacheEntry.mk v (now + cacheTTL) = e := Option.some.inj h
            have hval : e.value = v := by rw [← he]
            right
            subst hk
            subst hrem
            simp [remoteOkValues, remoteOkValue, hval]
  | opSet now durationMs key value environment remote =>
      simp only [configStep] at h
      rcases setConfiguration_cache_k c now durationMs key value environment remote k with hs | hs
      · rw [hs] at h
        exact Or.inl ⟨e, h, rfl⟩
      · rw [hs] at h
        cases h

/-- Provenance of a cache entry across a whole call sequence. -/
theorem runConfigOps_cache_source (k : String) :
    ∀ (ops : List ConfigOp) (c : ConfigurationClientState) (e : ConfigCacheEntry),
      (runConfigOps c ops).cache k = some e →
      (∃ e0, c.cache k = some e0 ∧ e0.value = e.value) ∨ e.value ∈ remoteOkValues k ops := by
  intro ops
  induction ops with
  | nil =>
      intro c e h
      exact Or.inl ⟨e, h, rfl⟩
  | cons op ops ih =>
      intro c e h
      rw [runConfigOps_cons] at h
      rcases ih _ _ h with ⟨e0, hc0, hv⟩ | hmem
      · rcases configStep_cache_source k c op e0 hc0 with ⟨e1, hc1, hv1⟩ | hmem0
        · exact Or.inl ⟨e1, hc1, hv1.trans hv⟩
        · right
          rw [remoteOkValues_cons]
          exact List.mem_append_left _ (hv ▸ hmem0)
      · right
        rw [remoteOkValues_cons]
        exact List.mem_append_right _ hmem

/-- Claim C3: after a successful `SetConfiguration(k, v, env)`, any later
`GetConfiguration(k)` — whatever intervening calls occur — returns only a
value fetched remotely after the write (possibly the final call's own
fetch), never the value cached before the write. -/
theorem setConfiguration_write_invalidation (c : ConfigurationClientState)
    (nowS dS : Timestamp) (k val env : String) (rs : RemoteSetOutcome)
    (post : List ConfigOp) (nowG dG : Timestamp) (rg : RemoteConfigOutcome)
    (v : ConfigurationValue)
    (hset : (setConfiguration c nowS dS k val env rs).2 = .ok ())
    (hget : (getConfiguration (runConfigOps (setConfiguration c nowS dS k val env rs).1 post)
        nowG dG k rg).result = .ok v) :
    v ∈ remoteOkValues k post ∨ rg = .success v := by
  have hc1 : (setConfiguration c nowS dS k val env rs).1.cache k = none :=
    setConfiguration_ok_cache hset
  rcases getConfiguration_ok hget with hcv | hrg
  · obtain ⟨e, hce, hve, -⟩ := getCachedValue_fst_some hcv
    rcases runConfigOps_cache_source k post _ e hce with ⟨e0, hc0, -⟩ | hmem
    · rw [hc1] at hc0
      cases hc0
    · left
      exact hve ▸ hmem
  · exact Or.inr hrg

/-- Witness for C3: write key `"k"` (pre-write cached value `demoCV`) with
a 200 response, then read it back; the read's value is the fresh remote
fetch. -/
theorem setConfiguration_write_invalidation_witness :
    demoCV2 ∈ remoteOkValues "k" [] ∨
      RemoteConfigOutcome.success demoCV2 = .success demoCV2 :=
  setConfiguration_write_invalidation demoConfigState 0 0 "k" "vnew" "development"
    (.status 200) [] 1 0 (.success demoCV2) demoCV2 (by decide) (by decide)

/-! ## Manager lemmas -/

/-- A successful first accessor call from a state with no memoized client
and no pooled connection dials exactly once and memoizes the client. -/
theorem getAudit_fresh_ok {ms : ManagerState} {st : Registry} {kf : Option String}
    {now : Timestamp} {dial : String → Except String Conn} {c : ManagedClient}
    (hcl : ms.clients "audit-correlator" = none)
    (hcn : ms.connections "audit-correlator" = none)
    (hok : (getAuditCorrelatorClient ms st kf now dial).2 = .ok c) :
    (getAuditCorrelatorClient ms st kf now dial).1.clients "audit-correlator" = some c ∧
      (getAuditCorrelatorClient ms st kf now dial).1.dialAttempts = ms.dialAttempts + 1 := by
  simp only [getAuditCorrelatorClient, hcl, getOrCreateConnection, hcn] at hok ⊢
  rcases hep : getServiceEndpoint st kf now "audit-correlator" with e | ep
  · simp [managerDial, hep] at hok
  · rcases hd : dial ep with msg | conn
    · simp [managerDial, hep, hd] at hok
    · simp only [managerDial, hep, hd] at hok ⊢
      have hc : ({ serviceName := "audit-correlator", connId := conn.id } : ManagedClient) = c :=
        Except.ok.inj hok
      simp [← hc]

/-- Claim C5: (a) two sequential accessor calls from a fresh manager whose
first call succeeded perform exactly one dial in total — the second call
returns the memoized client without dialing; (b) a pooled connection found
in a broken transport state is closed and discarded, and any connection the
call then returns comes from a fresh endpoint resolution and dial, never
from the discarded handle. -/
theorem connection_reuse_and_eviction :
    (∀ (ms : ManagerState) (st1 : Registry) (kf1 : Option String) (now1 : Timestamp)
        (dial1 : String → Except String Conn) (st2 : Registry) (kf2 : Option String)
        (now2 : Timestamp) (dial2 : String → Except String Conn) (c : ManagedClient),
      ms.clients "audit-correlator" = none →
      ms.connections "audit-correlator" = none →
      (getAuditCorrelatorClient ms st1 kf1 now1 dial1).2 = .ok c →
      (getAuditCorrelatorClient (getAuditCorrelatorClient ms st1 kf1 now1 dial1).1
          st2 kf2 now2 dial2).2 = .ok c ∧
        (getAuditCorrelatorClient (getAuditCorrelatorClient ms st1 kf1 now1 dial1).1
          st2 kf2 now2 dial2).1.dialAttempts = ms.dialAttempts + 1) ∧
    (∀ (name : String) (ms : ManagerState) (st : Registry) (kf : Option String)
        (now : Timestamp) (dial : String → Except String Conn) (conn : Conn),
      ms.connections name = some conn →
      conn.state ≠ .ready → conn.state ≠ .idle →
      (∀ ep c2, dial ep = .ok c2 → c2.id ≠ conn.id) →
      conn.id ∈ (getOrCreateConnection name ms st kf now dial).1.closedConns ∧
        (getOrCreateConnection name ms st kf now dial).1.connections name ≠ some conn ∧
        ∀ c2, (getOrCreateConnection name ms st kf now dial).2 = .ok c2 →
          ∃ ep, getServiceEndpoint st kf now name = .ok ep ∧ dial ep = .ok c2) := by
  constructor
  · intro ms st1 kf1 now1 dial1 st2 kf2 now2 dial2 c hcl hcn hok
    obtain ⟨hmemo, hdials⟩ := getAudit_fresh_ok hcl hcn hok
    set ms1 := (getAuditCorrelatorClient ms st1 kf1 now1 dial1).1 with hms1
    constructor
    · simp [getAuditCorrelatorClient, hmemo]
    · simp [getAuditCorrelatorClient, hmemo, hdials]
  · intro name ms st kf now dial conn hconn hnr hni hfresh
    have hstate : ¬(conn.state = .ready ∨ conn.state = .idle) := by
      rintro (h | h) <;> [exact hnr h; exact hni h]
    simp only [getOrCreateConnection, hconn, if_neg hstate]
    rcases hep : getServiceEndpoint st kf now name with e | ep
    · simp only [managerDial, hep]
      refine ⟨by simp, by simp, ?_⟩
      intro c2 habs
      exact absurd habs (by simp)
    · rcases hd : dial ep with msg | c2
      · simp only [managerDial, hep, hd]
        refine ⟨by simp, by simp, ?_⟩
        intro c3 habs
        exact absurd habs (by simp)
      · simp only [managerDial, hep, hd]
        refine ⟨by simp, ?_, ?_⟩
        · have hne : c2 ≠ conn := fun he => hfresh ep c2 hd (he ▸ rfl)
          simp [hne]
        · intro c3 hc3
          have hc : c2 = c3 := Except.ok.inj hc3
          exact ⟨ep, rfl, hc ▸ hd⟩

/-- A live record for the `audit-correlator` peer, and its registry. -/
def auditRecord : ServiceInfo :=
  { serviceName := "audit-correlator", host := "localhost", grpcPort := 9500, httpPort := 9501,
    version := "1.0.0", environment := "development", status := "healthy",
    lastSeen := 95, metadata := [] }

def auditRegistry : Registry :=
  [(getServiceKey auditRecord, some auditRecord)]

/-- Witness for C5: (a) a first call that dials (`id 7`) followed by a
second call against an empty registry and a failing dialer — the client is
served from the memo and exactly one dial happened in total; (b) a broken
connection (`id 3`) is closed, discarded, and the returned connection is
the freshly dialed one. -/
theorem connection_reuse_and_eviction_witness :
    ((getAuditCorrelatorClient
          (getAuditCorrelatorClient initialManagerState auditRegistry none 100
            (fun _ => .ok { id := 7, state := .ready })).1
          [] none 200 (fun _ => .error "down")).2 =
        .ok { serviceName := "audit-correlator", connId := 7 } ∧
      (getAuditCorrelatorClient
          (getAuditCorrelatorClient initialManagerState auditRegistry none 100
            (fun _ => .ok { id := 7, state := .ready })).1
          [] none 200 (fun _ => .error "down")).1.dialAttempts =
        initialManagerState.dialAttempts + 1) ∧
    ((3 : Nat) ∈ (getOrCreateConnection "audit-correlator"
        { initialManagerState with
            connections := fun k =>
              if k = "audit-correlator" then some { id := 3, state := .transientFailure }
              else none }
        auditRegistry none 100 (fun _ => .ok { id := 7, state := .ready })).1.closedConns ∧
      (getOrCreateConnection "audit-correlator"
        { initialManagerState with
            connections := fun k =>
              if k = "audit-correlator" then some { id := 3, state := .transientFailure }
              else none }
        auditRegistry none 100 (fun _ => .ok { id := 7, state := .ready })).1.connections
          "audit-correlator" ≠ some { id := 3, state := .transientFailure } ∧
      ∀ c2, (getOrCreateConnection "audit-correlator"
        { initialManagerState with
            connections := fun k =>
              if k = "audit-correlator" then some { id := 3, state := .transientFailure }
              else none }
        auditRegistry none 100 (fun _ => .ok { id := 7, state := .ready })).2 = .ok c2 →
        ∃ ep, getServiceEndpoint auditRegistry none 100 "audit-correlator" = .ok ep ∧
          (fun _ => (.ok { id := 7, state := .ready } : Except String Conn)) ep = .ok c2) := by
  constructor
  · exact connection_reuse_and_eviction.1 initialManagerState auditRegistry none 100
      (fun _ => .ok { id := 7, state := .ready }) [] none 200 (fun _ => .error "down")
      { serviceName := "audit-correlator", connId := 7 } rfl rfl (by decide)
  · exact connection_reuse_and_eviction.2 "audit-correlator"
      { initialManagerState with
          connections := fun k =>
            if k = "audit-correlator" then some { id := 3, state := .transientFailure }
            else none }
      auditRegistry none 100 (fun _ => .ok { id := 7, state := .ready })
      { id := 3, state := .transientFailure } (by decide) (by decide) (by decide)
      (fun ep c2 h => by rw [← Except.ok.inj h]; decide)

/-- Claim C6: whenever the accessor fails, its error is the
`ServiceUnavailableError` carrying the target service name and the
underlying cause produced by connection establishment — never a raw
discovery or transport error. -/
theorem getAuditCorrelatorClient_wraps_error (ms : ManagerState) (st : Registry)
    (kf : Option String) (now : Timestamp) (dial : String → Except String Conn)
    (e : MgrError) (h : (getAuditCorrelatorClient ms st kf now dial).2 = .error e) :
    ∃ cause, e = .serviceUnavailable "audit-correlator" cause ∧
      (getOrCreateConnection "audit-correlator" ms st kf now dial).2 = .error cause := by
  cases hcl : ms.clients "audit-correlator" with
  | some client => simp [getAuditCorrelatorClient, hcl] at h
  | none =>
      rcases hgoc : getOrCreateConnection "audit-correlator" ms st kf now dial with ⟨ms1, r⟩
      cases r with
      | error cause =>
          refine ⟨cause, ?_, rfl⟩
          simp only [getAuditCorrelatorClient, hcl, hgoc] at h
          exact (Except.error.inj h).symm
      | ok conn => simp [getAuditCorrelatorClient, hcl, hgoc] at h

/-- Witness for C6: against an empty registry, the accessor fails with the
typed `ServiceUnavailableError` naming `audit-correlator` and carrying the
resolution failure as its cause. -/
theorem getAuditCorrelatorClient_wraps_error_witness :
    ∃ cause, (MgrError.serviceUnavailable "audit-correlator"
        ("failed to discover service audit-correlator: " ++
          (DiscoveryError.noHealthyInstances "audit-correlator").message)) =
        .serviceUnavailable "audit-correlator" cause ∧
      (getOrCreateConnection "audit-correlator" initialManagerState [] none 0
        (fun _ => .error "dial refused")).2 = .error cause :=
  getAuditCorrelatorClient_wraps_error initialManagerState [] none 0
    (fun _ => .error "dial refused")
    (.serviceUnavailable "audit-correlator"
      ("failed to discover service audit-correlator: " ++
        (DiscoveryError.noHealthyInstances "audit-correlator").message))
    (by decide)

end ExchangeSimulator
